import Mathlib

/-!
Verification development for the repository sambaiga/deepbayes.

The repository is a single module, src/plot.py, that builds a literal
dictionary `params` of matplotlib style settings and applies it once with
`rcParams.update(params)` at import time.  We embed the dictionary, the
semantics of `dict.update` on the global `rcParams` store (viewed as a total
map from key strings to optional values), and the module body as a list of
statements executed in order.
-/

/-- Values stored in the matplotlib `rcParams` registry, as they occur in
src/plot.py: numbers (ints and floats, embedded as rationals), booleans,
strings, a `cycler` color sequence, and plain lists of strings. -/
inductive RcValue where
  | num (q : ℚ)
  | bool (b : Bool)
  | str (s : String)
  | cycle (colors : List String)
  | strList (ss : List String)
  deriving DecidableEq

/-- The `cycler(prop, colors)` constructor from the `cycler` library, as used
in src/plot.py line 9: it packages an ordered list of colors.  The property
name argument is `"color"` at the one use site. -/
def cycler (_prop : String) (colors : List String) : RcValue :=
  RcValue.cycle colors

/-- The `params` dictionary literal of src/plot.py lines 4-28, in source
order.  The keys are pairwise distinct (see `params_keys_nodup`), so the
association list and the Python dict agree. -/
def params : List (String × RcValue) := [
  ("lines.linewidth", .num 2),
  ("axes.edgecolor", .str "#bcbcbc"),
  ("patch.linewidth", .num (Rat.mk' 1 2)),
  ("legend.fancybox", .bool true),
  ("axes.prop_cycle", cycler "color" [
    "#348ABD",
    "#A60628",
    "#7A68A6",
    "#467821",
    "#CF4457",
    "#188487",
    "#E24A33"
  ]),
  ("axes.facecolor", .str "#eeeeee"),
  ("axes.labelsize", .str "large"),
  ("axes.grid", .bool false),
  ("patch.edgecolor", .str "#eeeeee"),
  ("axes.titlesize", .str "x-large"),
  ("text.usetex", .bool true),
  ("font.family", .str "serif"),
  ("font.serif", .strList []),
  ("figure.dpi", .num 300),
  ("font.size", .num 12)
]

/-- The matplotlib global style registry `rcParams`, viewed as a total map
from key strings to optional values (a key the registry does not hold maps
to `none`). -/
def RcStore : Type := String → Option RcValue

/-- First-match lookup in an association list, the Python dict lookup
(`params` has pairwise distinct keys, so first match and last match agree). -/
def dictFind (k : String) : List (String × RcValue) → Option RcValue
  | [] => none
  | (k₁, v) :: rest => if k = k₁ then some v else dictFind k rest

/-- The effect of `rcParams.update(ps)` on the global store `st`
(src/plot.py line 30): every key of `ps` now maps to its `ps` value, every
other key keeps its old value. -/
def rcParamsUpdate (ps : List (String × RcValue)) (st : RcStore) : RcStore :=
  fun k =>
    match dictFind k ps with
    | some v => some v
    | none => st k

/-- The keys of `params` are pairwise distinct. -/
theorem params_keys_nodup : (params.map Prod.fst).Nodup := by decide

/-- Every entry of `params` is found by lookup on its own key. -/
theorem dictFind_params_eq (kv : String × RcValue) (h : kv ∈ params) :
    dictFind kv.1 params = some kv.2 := by
  revert h
  revert kv
  decide

/-- Lookup on any key of `params` succeeds. -/
theorem dictFind_params_isSome (k : String) (h : k ∈ params.map Prod.fst) :
    (dictFind k params).isSome = true := by
  revert h
  revert k
  decide

/-- Lookup on a key outside an association list fails. -/
theorem dictFind_eq_none (ps : List (String × RcValue)) (k : String)
    (h : k ∉ ps.map Prod.fst) : dictFind k ps = none := by
  induction ps with
  | nil => rfl
  | cons kv rest ih =>
    simp only [List.map_cons, List.mem_cons, not_or] at h
    simp only [dictFind]
    rw [if_neg h.1, ih h.2]

/-- The statements of the module src/plot.py, in order: three import lines
(lines 1-3), the assignment of the `params` literal (lines 4-28), and the
call `rcParams.update(params)` (line 30). -/
inductive Stmt where
  | importLine
  | assignParams
  | callUpdate
  deriving DecidableEq

/-- The body of src/plot.py as a statement list, in source order. -/
def moduleBody : List Stmt :=
  [.importLine, .importLine, .importLine, .assignParams, .callUpdate]

/-- The state of a run of the module: the external global `rcParams` store,
the module-level variable `params` (absent before its assignment), and a
count of the mutations performed on the external global store. -/
structure ModuleState where
  rcStore : RcStore
  paramsVar : Option (List (String × RcValue))
  mutationCount : ℕ

/-- Execution of one statement of src/plot.py.  Imports do not touch the
modelled state; the assignment binds the literal; the update call merges the
bound dictionary into the global store and is the only statement that
mutates external global state. -/
def execStmt (s : ModuleState) : Stmt → ModuleState
  | .importLine => s
  | .assignParams => { s with paramsVar := some params }
  | .callUpdate =>
    match s.paramsVar with
    | some ps =>
      { s with
        rcStore := rcParamsUpdate ps s.rcStore
        mutationCount := s.mutationCount + 1 }
    | none => s

/-- Running the whole module at load time, starting from an arbitrary prior
global store `g` and no local bindings. -/
def runModule (g : RcStore) : ModuleState :=
  moduleBody.foldl execStmt { rcStore := g, paramsVar := none, mutationCount := 0 }

/-- The style aspects that section 6 of the spec lists as covered by the
keys written into the global configuration object. -/
inductive Aspect where
  | lineWidth
  | colorCycle
  | backgroundEdgeColors
  | fontFamilyAndSize
  | gridVisibility
  | titleLabelSizes
  | figureResolution
  | typesettingEngine
  deriving DecidableEq

/-- Spec-side definition, following the spec's words in section 6: the
classification of the matplotlib keys
appearing in src/plot.py into the aspects listed in section 6 of the spec
(line width, color cycle, background/edge colors, font family and size,
grid visibility, title/label sizes, figure resolution, typesetting engine
selection).  A key that matches none of the listed aspects is classified
`none`; in particular `legend.fancybox` (rounded legend frame style) is not
a line width, a color, a font, a grid, a size, a resolution, or a
typesetting setting. -/
def keyAspect : String → Option Aspect
  | "lines.linewidth" => some .lineWidth
  | "patch.linewidth" => some .lineWidth
  | "axes.prop_cycle" => some .colorCycle
  | "axes.edgecolor" => some .backgroundEdgeColors
  | "axes.facecolor" => some .backgroundEdgeColors
  | "patch.edgecolor" => some .backgroundEdgeColors
  | "font.family" => some .fontFamilyAndSize
  | "font.serif" => some .fontFamilyAndSize
  | "font.size" => some .fontFamilyAndSize
  | "axes.grid" => some .gridVisibility
  | "axes.labelsize" => some .titleLabelSizes
  | "axes.titlesize" => some .titleLabelSizes
  | "figure.dpi" => some .figureResolution
  | "text.usetex" => some .typesettingEngine
  | _ => none

/-- A string denoting a color value in src/plot.py: a hex code starting
with the hash character. -/
def isColorString (s : String) : Bool :=
  s.data.head? == some '#'

/-- Spec-side definition, following the spec's words in section 3: the
value shapes the spec allows
(numbers, booleans, strings, or small ordered sequences of color values).
A sequence counts only when each of its members is a color value. -/
def specValueShape : RcValue → Bool
  | .num _ => true
  | .bool _ => true
  | .str _ => true
  | .cycle colors => colors.all isColorString
  | .strList ss => ss.all isColorString

/-- Claim C1: after `rcParams.update(params)`, the global store maps every
key of `params` to exactly its `params` value; in particular `figure.dpi`
maps to 300, `font.size` to 12, `lines.linewidth` to 2.0, `text.usetex` to
True, and `axes.grid` to False. -/
theorem update_sets_every_param (st : RcStore) :
    (∀ kv ∈ params, rcParamsUpdate params st kv.1 = some kv.2) ∧
    rcParamsUpdate params st "figure.dpi" = some (.num 300) ∧
    rcParamsUpdate params st "font.size" = some (.num 12) ∧
    rcParamsUpdate params st "lines.linewidth" = some (.num 2) ∧
    rcParamsUpdate params st "text.usetex" = some (.bool true) ∧
    rcParamsUpdate params st "axes.grid" = some (.bool false) := by
  refine ⟨?_, rfl, rfl, rfl, rfl, rfl⟩
  intro kv h
  simp [rcParamsUpdate, dictFind_params_eq kv h]

/-- Claim C2: after the update, `axes.prop_cycle` is the cycler over exactly
these seven colors in this order. -/
theorem update_sets_color_cycle (st : RcStore) :
    rcParamsUpdate params st "axes.prop_cycle" =
      some (cycler "color"
        ["#348ABD", "#A60628", "#7A68A6", "#467821", "#CF4457", "#188487", "#E24A33"]) ∧
    ["#348ABD", "#A60628", "#7A68A6", "#467821", "#CF4457", "#188487", "#E24A33"].length = 7 :=
  ⟨rfl, rfl⟩

/-- Claim C3: `rcParams.update(params)` is a merge; any key not among the
keys of `params` keeps its previous value in the global store. -/
theorem update_frame (st : RcStore) (k : String) (h : k ∉ params.map Prod.fst) :
    rcParamsUpdate params st k = st k := by
  simp [rcParamsUpdate, dictFind_eq_none params k h]

/-- Witness for claim C3 at the concrete key `grid.color` (not a key of
`params`) and the empty prior store. -/
theorem update_frame_witness :
    "grid.color" ∉ params.map Prod.fst ∧
    rcParamsUpdate params (fun _ => none) "grid.color" =
      (fun _ => (none : Option RcValue)) "grid.color" :=
  ⟨by decide, update_frame (fun _ => none) "grid.color" (by decide)⟩

/-- Claim C5 counterexample: `legend.fancybox` is a key of `params`, yet it
falls under none of the style aspects listed by the spec, so it is not true
that every key of `params` belongs to one of the listed aspects. -/
theorem params_key_outside_listed_aspects :
    ("legend.fancybox", RcValue.bool true) ∈ params ∧
    keyAspect "legend.fancybox" = none ∧
    ¬ (∀ kv ∈ params, (keyAspect kv.1).isSome = true) := by
  refine ⟨by decide, rfl, fun h => ?_⟩
  have := h ("legend.fancybox", RcValue.bool true) (by decide)
  exact absurd this (by decide)

/-- Claim C5 amended: every key of `params` other than `legend.fancybox`
belongs to one of the aspects listed by the spec, and `legend.fancybox`
(legend frame style) is the only key outside them. -/
theorem params_keys_cover_listed_aspects :
    (∀ kv ∈ params, kv.1 ≠ "legend.fancybox" → (keyAspect kv.1).isSome = true) ∧
    (params.filter (fun kv => (keyAspect kv.1).isNone)).map Prod.fst =
      ["legend.fancybox"] := by
  constructor
  · decide
  · decide

/-- Claim C6 counterexample: `params` has 15 entries, not 17, so the claim
that each of the 17 entries has one of the four allowed value shapes is
false as stated. -/
theorem params_length_not_seventeen :
    params.length = 15 ∧
    ¬ (params.length = 17 ∧ ∀ kv ∈ params, specValueShape kv.2 = true) := by
  exact ⟨by decide, fun h => absurd h.1 (by decide)⟩

/-- Claim C6 amended: `params` has 15 entries, and every value in the
mapping is a number, a boolean, a string, or a small ordered sequence of
color values. -/
theorem params_values_have_allowed_shapes :
    params.length = 15 ∧ ∀ kv ∈ params, specValueShape kv.2 = true := by
  exact ⟨by decide, by decide⟩

/-- Claim C7: running the module performs exactly one mutation of the
external global store, the module body contains exactly one update call as
its final statement, the `params` binding still holds the unchanged literal
after the run, and the resulting global store is the single update applied
to the prior store. -/
theorem module_single_mutation (g : RcStore) :
    (runModule g).mutationCount = 1 ∧
    (runModule g).paramsVar = some params ∧
    (runModule g).rcStore = rcParamsUpdate params g ∧
    moduleBody.count Stmt.callUpdate = 1 ∧
    moduleBody.getLast? = some Stmt.callUpdate :=
  ⟨rfl, rfl, rfl, by decide, by decide⟩

/-- Claim C8: `rcParams.update(params)` is idempotent; applying it twice to
any prior global store equals applying it once. -/
theorem update_idempotent (st : RcStore) :
    rcParamsUpdate params (rcParamsUpdate params st) = rcParamsUpdate params st := by
  funext k
  simp only [rcParamsUpdate]
  cases h : dictFind k params <;> simp [h]

/-- Claim C9 counterexample: `params` has 15 keys, not 17, so the claim
that each of the 17 configured keys is overwritten independently of the
prior state is false as stated. -/
theorem update_overwrite_not_seventeen_keys :
    (params.map Prod.fst).length = 15 ∧
    ¬ ((params.map Prod.fst).length = 17 ∧
        ∀ (st st₁ : RcStore), ∀ k ∈ params.map Prod.fst,
          rcParamsUpdate params st k = rcParamsUpdate params st₁ k) := by
  exact ⟨by decide, fun h => absurd h.1 (by decide)⟩

/-- Claim C9 amended: the update reads no input and is deterministic (equal
prior stores give equal resulting stores), and for each of the 15 configured
keys the resulting value is independent of the prior store (overwrite, not
combine). -/
theorem update_deterministic_overwrite :
    (params.map Prod.fst).length = 15 ∧
    (∀ st st₁ : RcStore, st = st₁ →
        rcParamsUpdate params st = rcParamsUpdate params st₁) ∧
    (∀ (st st₁ : RcStore), ∀ k ∈ params.map Prod.fst,
        rcParamsUpdate params st k = rcParamsUpdate params st₁ k) := by
  refine ⟨by decide, fun st st₁ h => by rw [h], ?_⟩
  intro st st₁ k hk
  obtain ⟨v, hv⟩ := Option.isSome_iff_exists.mp (dictFind_params_isSome k hk)
  simp [rcParamsUpdate, hv]

/-- Claim C10: `params` sets `font.serif` to the empty list while setting
`font.family` to the string serif, and after the update the global store
holds exactly these values, pinning no specific serif font. -/
theorem update_sets_empty_serif_list (st : RcStore) :
    ("font.serif", RcValue.strList []) ∈ params ∧
    ("font.family", RcValue.str "serif") ∈ params ∧
    rcParamsUpdate params st "font.serif" = some (.strList []) ∧
    rcParamsUpdate params st "font.family" = some (.str "serif") :=
  ⟨by decide, by decide, rfl, rfl⟩
